import Mathlib

/-!
Verification development for the MediMate healthcare backend
(`src/api/main.py`): a FastAPI service exposing agent-routing endpoints,
a WhatsApp notifier, and a daily medicine-reminder scheduler built on the
third-party `schedule` library.  The Python code is shallowly embedded
below: pure string checks become Lean functions on `String`/`List Char`,
the scheduler's mutable job list becomes explicit state passing over
`List Job`, raised exceptions become `Except`, and wall-clock time is
minutes since an epoch (`Nat`).
-/

namespace MediMate

/-- ASCII decimal digit test, `48 = '0'`, `57 = '9'`. -/
def isDigitChar (c : Char) : Bool :=
  48 ≤ c.toNat && c.toNat ≤ 57

/-- Embedding of Python `str.isdigit()` restricted to ASCII strings (on
ASCII, `isdigit` is true exactly when the string is nonempty and every
character is a decimal digit `0`-`9`).  Used by `create_reminder`'s phone
check (main.py line 329). -/
def pyIsdigit (s : String) : Bool :=
  !s.data.isEmpty && s.data.all isDigitChar

/-- Numeric value of a digit character. -/
def digitVal (c : Char) : Nat := c.toNat - 48

/-- Model of the third-party `schedule` library's `Job.at` validation for a
daily job (`schedule.every().day.at(time_str)`), called by
`schedule_reminder` (main.py line 70).  The library accepts exactly the
strings matching the regex `([0-2]\d:)?[0-5]\d:[0-5]\d` whose leading
hour field, read as an integer, is between 0 and 23; every other string
raises `ScheduleValueError` before the job is added to the registry.
`50 = '2'`, `53 = '5'`. -/
def atValid (s : String) : Bool :=
  match s.data with
  | [a, b, ':', c, d] =>
      isDigitChar a && isDigitChar b && a.toNat ≤ 53 &&
      isDigitChar c && isDigitChar d && c.toNat ≤ 53 &&
      (digitVal a * 10 + digitVal b ≤ 23)
  | [a, b, ':', c, d, ':', e, f] =>
      isDigitChar a && isDigitChar b && a.toNat ≤ 50 &&
      isDigitChar c && isDigitChar d && c.toNat ≤ 53 &&
      isDigitChar e && isDigitChar f && e.toNat ≤ 53 &&
      (digitVal a * 10 + digitVal b ≤ 23)
  | _ => false

/-- Minute-of-day encoded by a valid `at` string (hour*60 + minute). -/
def fireOf (s : String) : Nat :=
  match s.data with
  | a :: b :: _ :: c :: d :: _ =>
      (digitVal a * 10 + digitVal b) * 60 + (digitVal c * 10 + digitVal d)
  | _ => 0

/-- Minutes in a day. -/
def minutesPerDay : Nat := 1440

/-- Model of the `schedule` library's `_schedule_next_run` for a daily job
with an `at` time: the next run is today at the stored minute-of-day if
that is still strictly ahead of `now`, otherwise tomorrow at that minute.
Times are absolute minutes since an epoch. -/
def nextOcc (now fire : Nat) : Nat :=
  if now % minutesPerDay < fire then (now / minutesPerDay) * minutesPerDay + fire
  else (now / minutesPerDay + 1) * minutesPerDay + fire

/-- One entry of the `schedule` library's job registry (`schedule.jobs`),
as created by `schedule_reminder`: the closed-over phone and medicine
name, the daily fire minute from the `at` string, and the absolute minute
of the next run. -/
structure Job where
  phone : String
  med : String
  fireMin : Nat
  nextRun : Nat
deriving DecidableEq, Repr

/-- Embedding of `schedule_reminder` (main.py lines 66-70):
`schedule.every().day.at(time_str).do(job)`.  An invalid time string makes
`.at` raise `ScheduleValueError` (modelled by `.error`) before `.do`
appends anything; a valid one appends one new job to the registry — the
library never removes or replaces an existing job. -/
def schedule_reminder (phone_number med_name time_str : String) (now : Nat)
    (reg : List Job) : Except String (List Job) :=
  if atValid time_str then
    .ok (reg ++ [⟨phone_number, med_name, fireOf time_str, nextOcc now (fireOf time_str)⟩])
  else
    .error "Invalid time format for a daily job (valid format is HH:MM(:SS))"

/-- The FastAPI error outcomes relevant here: an `HTTPException` raised by
a handler with status 400 or 404, or an exception the handler does not
catch, which FastAPI turns into a 500 internal server error. -/
inductive ApiError where
  | badRequest (detail : String)
  | notFound (detail : String)
  | internal (detail : String)
deriving DecidableEq, Repr

/-- Does an endpoint outcome carry a 400-equivalent validation error? -/
def isBadRequest {α : Type} : Except ApiError α → Bool
  | .error (.badRequest _) => true
  | _ => false

/-- Request body of `POST /api/medicine-reminder` (main.py lines 270-273). -/
structure ReminderRequest where
  phone : String
  medicine_name : String
  reminder_time : String
deriving DecidableEq, Repr

/-- Success body returned by `create_reminder` (main.py lines 333-338). -/
structure ReminderResponse where
  status : String
  phone : String
  medicine : String
  time : String
deriving DecidableEq, Repr

/-- Embedding of the `create_reminder` handler (main.py lines 327-338):
reject a non-digit phone with a 400 `HTTPException`, otherwise call
`schedule_reminder`; an exception escaping from the library is unhandled,
hence a 500 internal error.  The job registry is threaded explicitly; on
success the new registry is returned with the echoed response. -/
def create_reminder (rem : ReminderRequest) (now : Nat) (reg : List Job) :
    Except ApiError (List Job × ReminderResponse) :=
  if !pyIsdigit rem.phone then
    .error (.badRequest "Phone must be digits like 923001234567")
  else
    match schedule_reminder rem.phone rem.medicine_name rem.reminder_time now reg with
    | .error e => .error (.internal e)
    | .ok reg' =>
        .ok (reg', ⟨"Reminder scheduled successfully", rem.phone, rem.medicine_name,
                    rem.reminder_time⟩)

/-- The registry after a handler call: unchanged when the handler errors
(the exception fires before any mutation). -/
def registryAfter (reg : List Job) :
    Except ApiError (List Job × ReminderResponse) → List Job
  | .ok (reg', _) => reg'
  | .error _ => reg

/-- Number of jobs in the registry with a given (phone, medicine, fire
minute) identity. -/
def countIdentity (reg : List Job) (p m : String) (f : Nat) : Nat :=
  (reg.filter (fun j => j.phone == p && j.med == m && j.fireMin == f)).length

/-- Outcome of one call to the Twilio gateway
(`twilio_client.messages.create`): success, or a raised exception carrying
a message.  The gateway is passed as a function from (destination,
body) so the embedding stays executable. -/
def Gateway : Type := String → String → Except String Unit

/-- Embedding of `send_whatsapp_message` (main.py lines 54-63): one call to
the gateway inside `try`; on success it prints a confirmation line, on any
exception it prints a failure line.  The Python function returns `None`
either way, modelled by the `Unit` first component; the second component
is the printed console line. -/
def send_whatsapp_message (to_phone message : String) (gw : Gateway) :
    Unit × String :=
  match gw to_phone message with
  | .ok _ => ((), "✅ Message sent to " ++ to_phone)
  | .error e => ((), "❌ Failed to send WhatsApp message: " ++ e)

/-- The reminder text built by the closure in `schedule_reminder`
(main.py line 68). -/
def reminderMsg (med_name : String) : String :=
  "💊 Reminder from MediMate:\nIt's time to take your medicine: " ++ med_name ++ "."

/-- Record of one notification attempt made by a fired job: destination,
message body, and the console line `send_whatsapp_message` produced. -/
structure Attempt where
  dest : String
  msg : String
  log : String
deriving DecidableEq, Repr

/-- The attempt a job's closure makes when it fires (main.py lines 67-69). -/
def attemptOf (gw : Gateway) (j : Job) : Attempt :=
  ⟨j.phone, reminderMsg j.med,
   (send_whatsapp_message j.phone (reminderMsg j.med) gw).2⟩

/-- Embedding of one `schedule.run_pending()` pass of the scheduler thread
(main.py lines 72-75) at absolute minute `now`: every job whose `nextRun`
has arrived runs its closure (one notification attempt each, whatever the
gateway outcome, since the closure's `send_whatsapp_message` swallows all
exceptions) and is rescheduled by the library to the next occurrence of
its fire minute; other jobs are untouched.  Returns the new registry and
the attempts made. -/
def run_pending (gw : Gateway) (now : Nat) (reg : List Job) :
    List Job × List Attempt :=
  (reg.map (fun j =>
      if j.nextRun ≤ now then { j with nextRun := nextOcc now j.fireMin } else j),
   (reg.filter (fun j => j.nextRun ≤ now)).map (attemptOf gw))

/-- The names of the eight statically defined agent profiles
(main.py lines 81-238, collected in the dict of `agent_query`,
main.py lines 301-306). -/
def agentNames : List String :=
  ["Welcome Agent", "Health Check Agent", "COVID-19 Agent", "Emergency Agent",
   "Medicine Reminder Agent", "Diet Agent", "Mental Health Agent",
   "Registration Agent"]

/-- Request body of `POST /api/query` (main.py lines 262-264). -/
structure AgentQuery where
  agent_name : String
  message : String
deriving DecidableEq, Repr

/-- An invocation of the external language model by `Runner.run`: which
agent profile it runs with and the user input it receives. -/
structure ModelInvocation where
  agent : String
  input : String
deriving DecidableEq, Repr

/-- Embedding of the `agent_query` handler (main.py lines 299-311): look
the requested name up in the agent dict; a miss raises a 404
`HTTPException` before `Runner.run` is reached, a hit invokes the model
with that agent and the message. -/
def agent_query (q : AgentQuery) : Except ApiError ModelInvocation :=
  if agentNames.contains q.agent_name then
    .ok ⟨q.agent_name, q.message⟩
  else
    .error (.notFound "Agent not found")

/-- Modelled from the spec: the `POST chat` endpoint ({message, agent
name, session id} → response) is not present in `src/`; per the spec it
routes by agent name exactly like `query` and returns a 404-equivalent
NotFound for an unknown agent name, without invoking the model. -/
def chat_endpoint (message agent_name session_id : String) :
    Except ApiError ModelInvocation :=
  if agentNames.contains agent_name then
    .ok ⟨agent_name, "session:" ++ session_id ++ "\n" ++ message⟩
  else
    .error (.notFound "Agent not found")

/-- ASCII lowercasing, the embedding of Python `str.lower()` on ASCII
strings (`Char.toLower` maps `A`-`Z` to `a`-`z` and fixes the rest). -/
def lowerStr (s : String) : String :=
  ⟨s.data.map Char.toLower⟩

/-- Is `n` a prefix of `h`? -/
def prefixOf : List Char → List Char → Bool
  | [], _ => true
  | _ :: _, [] => false
  | a :: as, b :: bs => a == b && prefixOf as bs

/-- Does `n` occur contiguously inside `h`?  This is Python's `in` on
strings (the empty needle always occurs). -/
def containsSub (n : List Char) : List Char → Bool
  | [] => n.isEmpty
  | b :: bs => prefixOf n (b :: bs) || containsSub n bs

/-- Embedding of `make_filter` (main.py lines 243-244):
`lambda x: x if keyword in x.input_history.lower() else None`.  The
handoff input is represented by its accumulated `input_history` string,
which the filter passes through unchanged on a match and drops
otherwise. -/
def make_filter (keyword : String) (input_history : String) : Option String :=
  if containsSub keyword.data (lowerStr input_history).data then
    some input_history
  else
    none

/-- The keywords guarding `registration_agent.handoffs`, in declaration
order (main.py lines 246-253). -/
def handoffKeywords : List String :=
  ["health", "covid", "emergency", "medicine", "diet", "mental"]

/-- The spec's reading of the keyword predicate: the keyword occurs as a
substring of the history under a case-insensitive comparison (both sides
lowercased). -/
def specMatch (keyword h : String) : Bool :=
  containsSub (lowerStr keyword).data (lowerStr h).data

/-- Request body of `POST /api/emergency` (main.py lines 266-268). -/
structure EmergencyAlert where
  patient_name : String
  condition : String
deriving DecidableEq, Repr

/-- The observable effect of `open_whatsapp_web` (main.py lines 43-51):
it opens `https://web.whatsapp.com/send?phone=<to>&text=<urlencoded msg>`
in the browser, i.e. hands the destination phone and the (pre-encoding)
message text to WhatsApp Web.  The embedding records that pair. -/
structure NotifyCall where
  phone : String
  message : String
deriving DecidableEq, Repr

def open_whatsapp_web (to_phone message : String) : NotifyCall :=
  ⟨to_phone, message⟩

/-- The alert text built by `send_emergency_alert` (main.py lines 316-321);
the adjacent Python string literals concatenate into one string. -/
def emergencyMsg (alert : EmergencyAlert) : String :=
  "🚨 Emergency Alert!\nPatient: " ++ alert.patient_name ++
  "\nCondition: " ++ alert.condition ++ "\nPlease respond urgently!"

/-- Embedding of the `send_emergency_alert` handler (main.py lines
313-325): build the message, notify the hard-coded hospital number via
`open_whatsapp_web`, return the status object. -/
def send_emergency_alert (alert : EmergencyAlert) : NotifyCall × String :=
  (open_whatsapp_web "923412583056" (emergencyMsg alert),
   "Emergency message opened in WhatsApp Web")

/-- One turn of a conversation session. -/
structure Turn where
  role : String
  text : String
deriving DecidableEq, Repr

/-- Modelled from the spec: the Conversation Memory component is not
present in `src/`.  Per the spec it is a fixed-capacity per-session
buffer: "sequence length ≤ fixed capacity (e.g., 10); insertion evicts
the oldest turn once full (strict FIFO)". -/
def memAppend (cap : Nat) (buf : List Turn) (t : Turn) : List Turn :=
  if buf.length < cap then buf ++ [t] else buf.drop 1 ++ [t]

/-- Modelled from the spec: the fixed capacity of the Conversation Memory
("e.g., 10"). -/
def capacity : Nat := 10

/-- Appending a whole sequence of turns to a session buffer. -/
def memFold (cap : Nat) (buf : List Turn) (ts : List Turn) : List Turn :=
  ts.foldl (memAppend cap) buf

/-- Eleven concrete turns, one more than `capacity`. -/
def demoTurns : List Turn :=
  [⟨"user", "t1"⟩, ⟨"assistant", "t2"⟩, ⟨"user", "t3"⟩, ⟨"assistant", "t4"⟩,
   ⟨"user", "t5"⟩, ⟨"assistant", "t6"⟩, ⟨"user", "t7"⟩, ⟨"assistant", "t8"⟩,
   ⟨"user", "t9"⟩, ⟨"assistant", "t10"⟩, ⟨"user", "t11"⟩]

/-- The job registered by the concrete request used in the closed
instances below: phone 923001234567, medicine Panadol, 08:00 registered
at minute 0. -/
def demoJob : Job := ⟨"923001234567", "Panadol", 480, 480⟩

lemma countIdentity_append (r₁ r₂ : List Job) (p m : String) (f : Nat) :
    countIdentity (r₁ ++ r₂) p m f = countIdentity r₁ p m f + countIdentity r₂ p m f := by
  simp [countIdentity, List.filter_append]

lemma nextOcc_at_fire (now : Nat) :
    nextOcc now (now % minutesPerDay) = now + minutesPerDay := by
  unfold nextOcc
  rw [if_neg (lt_irrefl _)]
  simp only [minutesPerDay]
  omega

lemma memFold_drop (cap : Nat) (hcap : 0 < cap) :
    ∀ (ts buf : List Turn), buf.length ≤ cap →
      memFold cap buf ts = (buf ++ ts).drop (buf.length + ts.length - cap) := by
  intro ts
  induction ts with
  | nil =>
      intro buf hbuf
      simp [memFold, Nat.sub_eq_zero_of_le hbuf]
  | cons t rest ih =>
      intro buf hbuf
      have hstep : memFold cap buf (t :: rest) = memFold cap (memAppend cap buf t) rest := rfl
      rw [hstep]
      by_cases hlt : buf.length < cap
      · have hba : memAppend cap buf t = buf ++ [t] := by simp [memAppend, hlt]
        rw [hba, ih (buf ++ [t]) (by simp; omega)]
        have hl : buf ++ [t] ++ rest = buf ++ t :: rest := by simp
        rw [hl]
        congr 1
        simp
        omega
      · have hfull : buf.length = cap := le_antisymm hbuf (not_lt.mp hlt)
        cases buf with
        | nil => simp at hfull; omega
        | cons b bs =>
          have hlen : bs.length + 1 = cap := by simpa using hfull
          have hba : memAppend cap (b :: bs) t = bs ++ [t] := by
            unfold memAppend
            rw [if_neg hlt]
            simp
          rw [hba, ih (bs ++ [t])
            (by simp only [List.length_append, List.length_cons, List.length_nil]; omega)]
          have hl : bs ++ [t] ++ rest = bs ++ t :: rest := by simp
          rw [hl]
          have hidx₁ : (bs ++ [t]).length + rest.length - cap = rest.length := by
            simp only [List.length_append, List.length_cons, List.length_nil]; omega
          have hidx₂ : (b :: bs).length + (t :: rest).length - cap = rest.length + 1 := by
            simp only [List.length_cons]; omega
          rw [hidx₁, hidx₂]
          simp [List.cons_append, List.drop_succ_cons]

/-- C1 (counterexample): registering the identity (923001234567, Panadol,
08:00) twice does NOT leave one job: `schedule.every().day.at(...).do(...)`
only appends, so the registry ends with two jobs for that identity, not
one. -/
theorem c1_counterexample :
    schedule_reminder "923001234567" "Panadol" "08:00" 0 [] = .ok [demoJob] ∧
    schedule_reminder "923001234567" "Panadol" "08:00" 0 [demoJob] =
      .ok [demoJob, demoJob] ∧
    countIdentity [demoJob, demoJob] "923001234567" "Panadol" 480 ≠ 1 := by
  refine ⟨rfl, rfl, by decide⟩

/-- C1 (amended): registering an identity that already exists does not
replace the existing job; each successful call of `schedule_reminder`
appends a fresh job, so after two calls with the same (phone, medicine,
time) the registry holds two more jobs for that identity than before. -/
theorem c1_second_registration_adds_second_job (p m t : String) (now : Nat)
    (reg reg₁ reg₂ : List Job) (ht : atValid t = true)
    (h1 : schedule_reminder p m t now reg = .ok reg₁)
    (h2 : schedule_reminder p m t now reg₁ = .ok reg₂) :
    countIdentity reg₂ p m (fireOf t) = countIdentity reg p m (fireOf t) + 2 := by
  unfold schedule_reminder at h1 h2
  rw [if_pos ht] at h1 h2
  cases h1
  cases h2
  rw [countIdentity_append, countIdentity_append]
  have hone : countIdentity [⟨p, m, fireOf t, nextOcc now (fireOf t)⟩] p m (fireOf t) = 1 := by
    simp [countIdentity]
  rw [hone]

/-- C1 (witness for the amended theorem) at the concrete identity
(923001234567, Panadol, 08:00) registered twice starting from the empty
registry at minute 0. -/
theorem c1_second_registration_adds_second_job_witness :
    countIdentity [demoJob, demoJob] "923001234567" "Panadol" (fireOf "08:00") =
      countIdentity [] "923001234567" "Panadol" (fireOf "08:00") + 2 :=
  c1_second_registration_adds_second_job "923001234567" "Panadol" "08:00" 0
    [] [demoJob] [demoJob, demoJob] (by decide) rfl rfl

/-- C2 (counterexample): the request (phone 923001234567, Panadol, time
"8:00") has a malformed time, but `create_reminder` does not reject it
with a 400-equivalent validation error: the phone check passes, the
`schedule` library's `at` raises `ScheduleValueError`, and the handler
lets it escape as a 500-equivalent internal error. -/
theorem c2_counterexample :
    isBadRequest (create_reminder ⟨"923001234567", "Panadol", "8:00"⟩ 0 []) = false ∧
    create_reminder ⟨"923001234567", "Panadol", "8:00"⟩ 0 [] =
      .error (.internal "Invalid time format for a daily job (valid format is HH:MM(:SS))") := by
  refine ⟨rfl, rfl⟩

/-- C2 (amended): a registration request with a digits-only phone and a
time string that is not a valid HH:MM (or HH:MM:SS) time is rejected
before any job is added to the registry, but via an unhandled
`ScheduleValueError` surfaced as a 500-equivalent internal error, not a
400-equivalent validation error. -/
theorem c2_invalid_time_internal_error (rem : ReminderRequest) (now : Nat)
    (reg : List Job) (hp : pyIsdigit rem.phone = true)
    (ht : atValid rem.reminder_time = false) :
    create_reminder rem now reg =
      .error (.internal "Invalid time format for a daily job (valid format is HH:MM(:SS))") ∧
    registryAfter reg (create_reminder rem now reg) = reg := by
  unfold create_reminder schedule_reminder
  simp [hp, ht, registryAfter]

/-- C2 (witness for the amended theorem) at phone 923001234567 and the
out-of-range time "24:00". -/
theorem c2_invalid_time_internal_error_witness :
    create_reminder ⟨"923001234567", "Panadol", "24:00"⟩ 5 [] =
      .error (.internal "Invalid time format for a daily job (valid format is HH:MM(:SS))") ∧
    registryAfter [] (create_reminder ⟨"923001234567", "Panadol", "24:00"⟩ 5 []) = [] :=
  c2_invalid_time_internal_error ⟨"923001234567", "Panadol", "24:00"⟩ 5 []
    (by decide) (by decide)

/-- C5: a phone string failing the gateway's digits-only format check is
rejected with a 400-equivalent validation error and the job registry is
left unchanged, so no job is ever registered (and hence no reminder ever
sent) for that phone. -/
theorem c5_invalid_phone_rejected (rem : ReminderRequest) (now : Nat)
    (reg : List Job) (hp : pyIsdigit rem.phone = false) :
    create_reminder rem now reg =
      .error (.badRequest "Phone must be digits like 923001234567") ∧
    registryAfter reg (create_reminder rem now reg) = reg := by
  unfold create_reminder
  simp [hp, registryAfter]

/-- C5 (witness) at the E.164-style phone "+923001234567", which fails
`isdigit`. -/
theorem c5_invalid_phone_rejected_witness :
    create_reminder ⟨"+923001112233", "Panadol", "08:00"⟩ 0 [] =
      .error (.badRequest "Phone must be digits like 923001234567") ∧
    registryAfter [] (create_reminder ⟨"+923001112233", "Panadol", "08:00"⟩ 0 []) = [] :=
  c5_invalid_phone_rejected ⟨"+923001112233", "Panadol", "08:00"⟩ 0 [] (by decide)

/-- C10: the medicine-reminder endpoint only ever accepts digits-only
phone strings (any accepted request has a nonempty all-digit phone), and
in particular every phone with a leading "+" — including the "+"-prefixed
E.164 form given as the example in `ReminderRequest`'s own field comment —
is rejected with a 400 error. -/
theorem c10_plus_phone_never_registered (rem₁ rem₂ : ReminderRequest)
    (now : Nat) (reg : List Job) (out : List Job × ReminderResponse)
    (rest : List Char) (h1 : rem₁.phone.data = '+' :: rest)
    (h2 : create_reminder rem₂ now reg = .ok out) :
    create_reminder rem₁ now reg =
      .error (.badRequest "Phone must be digits like 923001234567") ∧
    rem₂.phone.data ≠ [] ∧ rem₂.phone.data.all isDigitChar = true := by
  have hplus : pyIsdigit rem₁.phone = false := by
    unfold pyIsdigit
    rw [h1]
    simp [isDigitChar]
  have hb : pyIsdigit rem₂.phone = true := by
    by_contra hneg
    rw [Bool.not_eq_true] at hneg
    simp [create_reminder, hneg] at h2
  refine ⟨?_, ?_, ?_⟩
  · unfold create_reminder
    simp [hplus]
  · have := hb
    unfold pyIsdigit at this
    rw [Bool.and_eq_true] at this
    simpa using this.1
  · have := hb
    unfold pyIsdigit at this
    rw [Bool.and_eq_true] at this
    exact this.2

/-- C10 (witness): the documented example phone "+923001234567" is
rejected, while the bare-digit "923001234567" is accepted. -/
theorem c10_plus_phone_never_registered_witness :
    create_reminder ⟨"+923001234567", "Panadol", "08:00"⟩ 0 [] =
      .error (.badRequest "Phone must be digits like 923001234567") ∧
    ("923001234567" : String).data ≠ [] ∧
    ("923001234567" : String).data.all isDigitChar = true :=
  c10_plus_phone_never_registered
    ⟨"+923001234567", "Panadol", "08:00"⟩ ⟨"923001234567", "Panadol", "08:00"⟩ 0 []
    ([demoJob], ⟨"Reminder scheduled successfully", "923001234567", "Panadol", "08:00"⟩)
    "923001234567".data rfl rfl

/-- C3: a query (and, per the spec-modelled chat endpoint, a chat) naming
an agent outside the eight statically defined profiles returns a
404-equivalent NotFound and never reaches `Runner.run`, so the language
model is not invoked. -/
theorem c3_unknown_agent_not_found (q : AgentQuery) (message session_id : String)
    (h : agentNames.contains q.agent_name = false) :
    agent_query q = .error (.notFound "Agent not found") ∧
    chat_endpoint message q.agent_name session_id =
      .error (.notFound "Agent not found") := by
  have h' : q.agent_name ∉ agentNames := by simpa using h
  unfold agent_query chat_endpoint
  simp [h']

/-- C3 (witness) at the unknown agent name "Billing Agent". -/
theorem c3_unknown_agent_not_found_witness :
    agent_query ⟨"Billing Agent", "hello"⟩ = .error (.notFound "Agent not found") ∧
    chat_endpoint "hello" "Billing Agent" "s1" =
      .error (.notFound "Agent not found") :=
  c3_unknown_agent_not_found ⟨"Billing Agent", "hello"⟩ "hello" "s1" (by decide)

/-- C4: appending N > capacity turns to an (initially empty) session
buffer leaves exactly `capacity` turns, namely the most recent ones in
their original oldest-first order. -/
theorem c4_memory_strict_fifo (ts : List Turn) (h : ts.length > capacity) :
    memFold capacity [] ts = ts.drop (ts.length - capacity) ∧
    (memFold capacity [] ts).length = capacity := by
  have hd := memFold_drop capacity (by decide) ts [] (by simp)
  simp only [List.nil_append, List.length_nil, Nat.zero_add] at hd
  refine ⟨hd, ?_⟩
  rw [hd, List.length_drop]
  omega

/-- C4 (witness): eleven concrete turns against capacity 10. -/
theorem c4_memory_strict_fifo_witness :
    demoTurns.length > capacity ∧
    (memFold capacity [] demoTurns = demoTurns.drop (demoTurns.length - capacity) ∧
     (memFold capacity [] demoTurns).length = capacity) :=
  ⟨by decide, c4_memory_strict_fifo demoTurns (by decide)⟩

/-- C6 (counterexample): `send_whatsapp_message` does not return a
structured {ok, error} result: its Python return value is `None` on both
a failing and a succeeding gateway call, so the claimed
{ok=false, error} / {ok, provider_response} results do not exist — the
two return values are identical and carry no outcome. -/
theorem c6_counterexample :
    (send_whatsapp_message "923001234567" "hello" (fun _ _ => .error "boom")).1 =
      (send_whatsapp_message "923001234567" "hello" (fun _ _ => .ok ())).1 :=
  rfl

/-- C6 (amended): the notifier makes a single gateway attempt and catches
any gateway error rather than raising it, but only logs the outcome to
the console (❌ on failure, ✅ on success); it returns `None` in both
cases, so no structured {ok, error} result reaches the caller. -/
theorem c6_send_single_attempt_catches (to_phone message e : String) (gw : Gateway) :
    send_whatsapp_message to_phone message (fun _ _ => .error e) =
      ((), "❌ Failed to send WhatsApp message: " ++ e) ∧
    send_whatsapp_message to_phone message (fun _ _ => .ok ()) =
      ((), "✅ Message sent to " ++ to_phone) ∧
    (send_whatsapp_message to_phone message gw).1 = () := by
  refine ⟨rfl, rfl, ?_⟩
  cases hgw : gw to_phone message <;> simp [send_whatsapp_message, hgw]

/-- C7: when a due job fires at its stored minute and the gateway send
fails, the job makes exactly one (failed, logged) attempt, stays in the
registry rescheduled one day later at the same stored minute, and no
further attempt happens at any later tick within the same day. -/
theorem c7_failed_send_job_persists (j : Job) (gw gw' : Gateway) (e : String)
    (now now' : Nat) (hdue : j.nextRun ≤ now)
    (hfire : now % minutesPerDay = j.fireMin)
    (hgw : gw j.phone (reminderMsg j.med) = .error e)
    (_h1 : now < now') (h2 : now' < now + minutesPerDay) :
    run_pending gw now [j] =
      ([{ j with nextRun := now + minutesPerDay }],
       [⟨j.phone, reminderMsg j.med, "❌ Failed to send WhatsApp message: " ++ e⟩]) ∧
    run_pending gw' now' [{ j with nextRun := now + minutesPerDay }] =
      ([{ j with nextRun := now + minutesPerDay }], []) ∧
    (now + minutesPerDay) % minutesPerDay = j.fireMin := by
  have hocc : nextOcc now j.fireMin = now + minutesPerDay := by
    rw [← hfire]
    exact nextOcc_at_fire now
  refine ⟨?_, ?_, ?_⟩
  · unfold run_pending
    simp [hdue, attemptOf, send_whatsapp_message, hgw, hocc]
  · unfold run_pending
    have hnot : ¬ now + minutesPerDay ≤ now' := by omega
    simp [hnot]
  · rw [Nat.add_mod_right, hfire]

/-- C7 (witness): the job (923001234567, Panadol, fire minute 480) due at
minute 480 with a failing gateway, re-checked at minute 481. -/
theorem c7_failed_send_job_persists_witness :
    run_pending (fun _ _ => .error "boom") 480 [demoJob] =
      ([{ demoJob with nextRun := 480 + minutesPerDay }],
       [⟨"923001234567", reminderMsg "Panadol",
         "❌ Failed to send WhatsApp message: " ++ "boom"⟩]) ∧
    run_pending (fun _ _ => .ok ()) 481 [{ demoJob with nextRun := 480 + minutesPerDay }] =
      ([{ demoJob with nextRun := 480 + minutesPerDay }], []) ∧
    (480 + minutesPerDay) % minutesPerDay = demoJob.fireMin :=
  c7_failed_send_job_persists demoJob (fun _ _ => .error "boom") (fun _ _ => .ok ())
    "boom" 480 481 (by decide) (by decide) rfl (by decide) (by decide)

/-- C8: every well-formed emergency alert notifies the fixed hospital
number 923412583056 (the same destination whatever the alert contains)
with a message carrying the patient name and the condition, and the
handler returns its status string. -/
theorem c8_emergency_fixed_destination (alert alert' : EmergencyAlert) :
    (send_emergency_alert alert).1.phone = "923412583056" ∧
    (send_emergency_alert alert).1.phone = (send_emergency_alert alert').1.phone ∧
    (∃ x y z, (send_emergency_alert alert).1.message =
        x ++ alert.patient_name ++ y ++ alert.condition ++ z) ∧
    (send_emergency_alert alert).2 = "Emergency message opened in WhatsApp Web" :=
  ⟨rfl, rfl,
   ⟨"🚨 Emergency Alert!\nPatient: ", "\nCondition: ", "\nPlease respond urgently!", rfl⟩,
   rfl⟩

/-- C9: for each configured handoff keyword (all six are lowercase), the
filter built by `make_filter` matches exactly when the keyword occurs
case-insensitively as a substring of the accumulated input history, and
on a match it passes the history through unchanged, otherwise it yields
`none` (the candidate is not selected). -/
theorem c9_keyword_filter_case_insensitive (k : String)
    (hk : k ∈ handoffKeywords) (h : String) :
    make_filter k h = if specMatch k h then some h else none := by
  have hl : lowerStr k = k := by
    simp only [handoffKeywords, List.mem_cons, List.not_mem_nil, or_false] at hk
    rcases hk with rfl | rfl | rfl | rfl | rfl | rfl <;> rfl
  unfold make_filter specMatch
  rw [hl]

/-- C9 (witness): the keyword "health" against the history
"Need HEALTH checkup please" (a case-insensitive match). -/
theorem c9_keyword_filter_case_insensitive_witness :
    "health" ∈ handoffKeywords ∧
    make_filter "health" "Need HEALTH checkup please" =
      if specMatch "health" "Need HEALTH checkup please"
      then some "Need HEALTH checkup please" else none :=
  ⟨by decide,
   c9_keyword_filter_case_insensitive "health" (by decide) "Need HEALTH checkup please"⟩

end MediMate
